import Mathlib

/-!
Verification of the request-shaping and conversation-state contract of the
GPT-5 Multimodal Chat API backend (src/main.py).

The endpoints are shallowly embedded as pure Lean functions.  The upstream
chat-completion call is modelled by a parameter carrying the reply text the
provider would return, and each endpoint result records whether the upstream
call was reached.  Python stdlib functions used by the code (base64.b64encode,
json.loads) are modelled respectively by an explicit base64 encoder and by a
function parameter standing for the JSON parser.
-/

/-- Content part of a chat message: a text part or an image-URL part,
mirroring the dicts built in src/main.py. -/
inductive ContentPart where
  | text (t : String)
  | image_url (url : String)
deriving DecidableEq, Repr

/-- Message content: either a plain string or a list of typed parts. -/
inductive Content where
  | str (s : String)
  | parts (ps : List ContentPart)
deriving DecidableEq, Repr

/-- One conversation turn, a role/content pair. -/
structure Message where
  role : String
  content : Content
deriving DecidableEq, Repr

/-- Model of a FastAPI UploadFile: the declared MIME type and the raw bytes
(each a value 0..255). -/
structure UploadFile where
  content_type : String
  bytes : List Nat
deriving DecidableEq, Repr

/-- Model of an HTTPException as seen by the client: status code and detail. -/
structure HTTPErr where
  status_code : Nat
  detail : String
deriving DecidableEq, Repr

/-- Response model of the two image endpoints (class ImageAnalysisResponse). -/
structure ImageAnalysisResponse where
  response : String
  analysis_type : String
deriving DecidableEq, Repr

/-- Response model of /chat/text (class TextChatResponse). -/
structure TextChatResponse where
  response : String
  conversation_history : List Message
deriving DecidableEq, Repr

/-- Response dict of /chat/multimodal. -/
structure MultimodalResponse where
  response : String
  conversation_history : List Message
  has_image : Bool
deriving DecidableEq, Repr

/-- Outcome of one endpoint invocation: the HTTP-level result, whether the
upstream completion call was reached, and the message list submitted upstream
(empty when no call was made). -/
structure EndpointOutcome (ρ : Type) where
  result : Except HTTPErr ρ
  upstreamCalled : Bool
  sentMessages : List Message

/-- Python truthiness of an Optional[str]: None and the empty string are
falsy. -/
def pyTruthy : Option String → Bool
  | none => false
  | some s => !s.isEmpty

/-- Python str.startswith(p), modelled on character lists so that it
evaluates by kernel reduction. -/
def pyStartsWith (s p : String) : Bool :=
  p.toList.isPrefixOf s.toList

/-- Character of the standard base64 alphabet at a given index. -/
def b64Char (n : Nat) : Char :=
  "ABCDEFGHIJKLMNOPQRSTUVWXYZabcdefghijklmnopqrstuvwxyz0123456789+/".toList.getD n 'A'

/-- Standard base64 encoding of a byte list, modelling Python
base64.b64encode(...).decode("utf-8") as used by encode_image_to_base64. -/
def b64encode : List Nat → String
  | [] => ""
  | [a] => String.mk [b64Char (a / 4), b64Char (a % 4 * 16), '=', '=']
  | [a, b] => String.mk [b64Char (a / 4), b64Char (a % 4 * 16 + b / 16), b64Char (b % 16 * 4), '=']
  | a :: b :: c :: rest =>
      String.mk [b64Char (a / 4), b64Char (a % 4 * 16 + b / 16),
        b64Char (b % 16 * 4 + c / 64), b64Char (c % 64)] ++ b64encode rest

/-- The static preset table, key to instruction string, exactly the dict
inside get_preset_prompt in src/main.py. -/
def presets : List (String × String) :=
  [ ("analyze", "Analyze this image in detail. Describe what you see, identify key elements, colors, composition, and any notable features."),
    ("summarize", "Provide a concise summary of what\x27s shown in this image in 2-3 sentences."),
    ("describe", "Describe this image as if you\x27re explaining it to someone who cannot see it. Be detailed and specific."),
    ("extract_text", "Extract and transcribe any text visible in this image. If no text is present, say \x27No text detected\x27."),
    ("identify_objects", "Identify and list all the objects, people, or items you can see in this image."),
    ("explain_context", "Explain the context and setting of this image. What\x27s happening? Where might this be taken?") ]

/-- get_preset_prompt from src/main.py: table lookup with default fallback
(presets.get(action, "Analyze this image")). -/
def get_preset_prompt (action : String) : String :=
  (List.lookup action presets).getD "Analyze this image"

/-- Request model of /chat/text (class TextChatRequest); the
conversation_history field is Optional with default []. -/
structure TextChatRequest where
  message : String
  conversation_history : Option (List Message)
deriving DecidableEq, Repr

/-- Request model of /chat/image-base64 (class ImageAnalysisRequest), holding
the field values after pydantic validation. -/
structure ImageAnalysisRequest where
  image_base64 : String
  prompt : Option String
  preset_action : Option String
deriving DecidableEq, Repr

/-- A JSON field of a request body: absent, explicit null, or a value. -/
inductive JsonField (α : Type) where
  | absent
  | null
  | val (a : α)
deriving DecidableEq, Repr

/-- Pydantic construction of ImageAnalysisRequest from a JSON body: an absent
prompt field takes the declared default "Analyze this image", an absent
preset_action field takes the default None; explicit null gives None. -/
def ImageAnalysisRequest.ofJson (image_base64 : String)
    (prompt preset_action : JsonField String) : ImageAnalysisRequest :=
  { image_base64 := image_base64,
    prompt := match prompt with
      | .absent => some "Analyze this image"
      | .null => none
      | .val s => some s,
    preset_action := match preset_action with
      | .absent => none
      | .null => none
      | .val s => some s }

/-- Endpoint /chat/text (text_chat in src/main.py): copy the supplied history
(empty when None), append the user turn, call upstream, append the assistant
turn, return both reply and full history. -/
def text_chat (request : TextChatRequest) (upstreamReply : String) :
    EndpointOutcome TextChatResponse :=
  let messages :=
    (match request.conversation_history with
      | some h => h
      | none => []) ++ [⟨"user", .str request.message⟩]
  let assistant_response := upstreamReply
  let final := messages ++ [⟨"assistant", .str assistant_response⟩]
  { result := .ok ⟨assistant_response, final⟩,
    upstreamCalled := true,
    sentMessages := messages }

/-- Endpoint /chat/image-upload (image_upload_chat in src/main.py).  The MIME
check raises HTTPException(400, "File must be an image") inside the try block;
since HTTPException is an Exception, the blanket except clause catches it and
re-raises HTTPException(500, "Error processing image: " + str(e)), where
str(e) renders as "400: File must be an image".  So the client observes 500
and no upstream call is made. -/
def image_upload_chat (image : UploadFile) (prompt preset_action : Option String)
    (upstreamReply : String) : EndpointOutcome ImageAnalysisResponse :=
  if !(pyStartsWith image.content_type "image/") then
    { result := .error ⟨500, "Error processing image: 400: File must be an image"⟩,
      upstreamCalled := false,
      sentMessages := [] }
  else
    let base64_image := b64encode image.bytes
    let sel : String × String :=
      if pyTruthy preset_action then
        (get_preset_prompt (preset_action.getD ""), preset_action.getD "")
      else if pyTruthy prompt then
        (prompt.getD "", "custom")
      else
        ("Analyze this image", "default")
    let final_prompt := sel.1
    let analysis_type := sel.2
    let messages : List Message :=
      [⟨"user", .parts [.text final_prompt,
        .image_url ("data:image/jpeg;base64," ++ base64_image)]⟩]
    { result := .ok ⟨upstreamReply, analysis_type⟩,
      upstreamCalled := true,
      sentMessages := messages }

/-- Endpoint /chat/image-base64 (image_base64_chat in src/main.py).  Note the
else branch: final_prompt is request.prompt or the default, and analysis_type
is "custom" exactly when request.prompt is truthy. -/
def image_base64_chat (request : ImageAnalysisRequest) (upstreamReply : String) :
    EndpointOutcome ImageAnalysisResponse :=
  let sel : String × String :=
    if pyTruthy request.preset_action then
      (get_preset_prompt (request.preset_action.getD ""), request.preset_action.getD "")
    else
      ((if pyTruthy request.prompt then request.prompt.getD "" else "Analyze this image"),
       (if pyTruthy request.prompt then "custom" else "default"))
  let final_prompt := sel.1
  let analysis_type := sel.2
  let messages : List Message :=
    [⟨"user", .parts [.text final_prompt,
      .image_url ("data:image/jpeg;base64," ++ request.image_base64)]⟩]
  { result := .ok ⟨upstreamReply, analysis_type⟩,
    upstreamCalled := true,
    sentMessages := messages }

/-- Endpoint /chat/multimodal (multimodal_chat in src/main.py).  jsonLoads
models Python json.loads on the serialized history: none stands for a
JSONDecodeError, in which case the code falls back to the empty list.  The
image part is appended only when a file was supplied and its MIME type starts
with "image/", while has_image reports image is not None. -/
def multimodal_chat (message : String) (image : Option UploadFile)
    (conversation_history : Option String)
    (jsonLoads : String → Option (List Message))
    (upstreamReply : String) : EndpointOutcome MultimodalResponse :=
  let messages : List Message :=
    if pyTruthy conversation_history then
      match jsonLoads (conversation_history.getD "") with
      | some m => m
      | none => []
    else []
  let imageParts : List ContentPart :=
    match image with
    | some img =>
        if pyStartsWith img.content_type "image/" then
          [.image_url ("data:image/jpeg;base64," ++ b64encode img.bytes)]
        else []
    | none => []
  let current_message : Message := ⟨"user", .parts ([.text message] ++ imageParts)⟩
  let sent := messages ++ [current_message]
  let assistant_response := upstreamReply
  let final := sent ++ [⟨"assistant", .str assistant_response⟩]
  { result := .ok ⟨assistant_response, final, image.isSome⟩,
    upstreamCalled := true,
    sentMessages := sent }

/-- Whether a content part is an image-URL part. -/
def ContentPart.isImageUrl : ContentPart → Bool
  | .image_url _ => true
  | .text _ => false

/-- Whether a message contains an image part. -/
def Message.hasImagePart (msg : Message) : Bool :=
  match msg.content with
  | .str _ => false
  | .parts ps => ps.any ContentPart.isImageUrl

/-- The image URLs occurring in a message, in order. -/
def Message.imageUrls (msg : Message) : List String :=
  match msg.content with
  | .str _ => []
  | .parts ps => ps.filterMap (fun p => match p with
      | .image_url u => some u
      | .text _ => none)

/-- Every entry of the preset table has a nonempty key and is returned by
lookup. -/
theorem mem_presets_props (k instr : String) (hk : (k, instr) ∈ presets) :
    k.isEmpty = false ∧ List.lookup k presets = some instr := by
  fin_cases hk <;> exact ⟨rfl, rfl⟩

/-- The last element of a list with a singleton appended. -/
theorem getLast?_append_singleton (l : List Message) (a : Message) :
    (l ++ [a]).getLast? = some a := by
  rw [List.getLast?_append_cons]
  rfl

/-- C7: a successful /chat/text request with history H and message m returns
H followed by the new user turn and then the assistant turn carrying the
upstream reply; in particular with empty history, message "hi" and upstream
reply "hello" it returns [user "hi", assistant "hello"]. -/
theorem text_chat_round_trip (H : List Message) (m reply : String) :
    ((text_chat ⟨m, some H⟩ reply).result =
      .ok ⟨reply, H ++ [⟨"user", .str m⟩, ⟨"assistant", .str reply⟩]⟩)
    ∧ ((text_chat ⟨"hi", some []⟩ "hello").result =
      .ok ⟨"hello", [⟨"user", .str "hi"⟩, ⟨"assistant", .str "hello"⟩]⟩) := by
  constructor
  · simp [text_chat]
  · rfl

/-- C1: on /chat/image-upload with a non-image declared MIME type, no
upstream call is attempted, but the observed HTTP status is 500, not 400: the
HTTPException(400) raised inside the try block is caught by the blanket
except Exception clause and re-raised as a 500. -/
theorem image_upload_nonimage_mime_gives_500 :
    ((image_upload_chat ⟨"text/plain", [104, 105]⟩ none none "unused").result.mapError
        HTTPErr.status_code = .error 500)
    ∧ (image_upload_chat ⟨"text/plain", [104, 105]⟩ none none "unused").upstreamCalled
        = false := ⟨rfl, rfl⟩

/-- C2 counterexample: on /chat/image-base64 a request body with the prompt
field omitted and no preset key yields analysis_type "custom", not "default",
because the pydantic field default fills the prompt with a truthy string. -/
theorem image_base64_omitted_prompt_not_default :
    ((image_base64_chat (ImageAnalysisRequest.ofJson "abc" .absent .absent) "r").result =
      .ok ⟨"r", "custom"⟩)
    ∧ "custom" ≠ "default" := ⟨rfl, by decide⟩

/-- C2 amended: with neither preset key nor prompt, the selected instruction
text is always "Analyze this image"; analysis_type is "default" on
/chat/image-upload and, on /chat/image-base64, "default" when the prompt
field is explicitly null but "custom" when the prompt field is omitted (the
pydantic default makes the prompt truthy). -/
theorem default_instruction_selection (image : UploadFile) (b64 reply : String)
    (himg : pyStartsWith image.content_type "image/" = true) :
    ((image_upload_chat image none none reply).result = .ok ⟨reply, "default"⟩
      ∧ (image_upload_chat image none none reply).sentMessages =
          [⟨"user", .parts [.text "Analyze this image",
            .image_url ("data:image/jpeg;base64," ++ b64encode image.bytes)]⟩])
    ∧ ((image_base64_chat (ImageAnalysisRequest.ofJson b64 .null .absent) reply).result =
          .ok ⟨reply, "default"⟩
      ∧ (image_base64_chat (ImageAnalysisRequest.ofJson b64 .null .absent) reply).sentMessages =
          [⟨"user", .parts [.text "Analyze this image",
            .image_url ("data:image/jpeg;base64," ++ b64)]⟩])
    ∧ ((image_base64_chat (ImageAnalysisRequest.ofJson b64 .absent .absent) reply).result =
          .ok ⟨reply, "custom"⟩
      ∧ (image_base64_chat (ImageAnalysisRequest.ofJson b64 .absent .absent) reply).sentMessages =
          [⟨"user", .parts [.text "Analyze this image",
            .image_url ("data:image/jpeg;base64," ++ b64)]⟩]) := by
  refine ⟨⟨?_, ?_⟩, ⟨rfl, rfl⟩, ⟨rfl, rfl⟩⟩ <;>
    simp [image_upload_chat, himg, pyTruthy]

/-- Witness for the C2 amended theorem at a concrete image/png upload. -/
theorem default_instruction_selection_witness :
    (image_upload_chat ⟨"image/png", []⟩ none none "r").result =
      .ok ⟨"r", "default"⟩ :=
  (default_instruction_selection ⟨"image/png", []⟩ "abc" "r" (by decide)).1.1

/-- C9: supplying the preset key as the empty string is falsy in Python, so
the preset branch is skipped: the outcome is identical to supplying no preset
key at all, and analysis_type comes out "custom" or "default" (never the
empty string), according to the prompt. -/
theorem empty_preset_key_falls_through (image : UploadFile) (prompt : Option String)
    (b64 reply : String) :
    (image_upload_chat image prompt (some "") reply =
      image_upload_chat image prompt none reply)
    ∧ (image_base64_chat ⟨b64, prompt, some ""⟩ reply =
      image_base64_chat ⟨b64, prompt, none⟩ reply)
    ∧ ((image_base64_chat ⟨b64, prompt, some ""⟩ reply).result =
        .ok ⟨reply, if pyTruthy prompt then "custom" else "default"⟩)
    ∧ (if pyTruthy prompt then "custom" else "default") ≠ "" := by
  refine ⟨rfl, rfl, rfl, ?_⟩
  cases pyTruthy prompt <;> simp

/-- C3 counterexample: on /chat/multimodal, supplying a file whose declared
MIME type is "text/plain" yields has_image = true even though no image part
was included in the outgoing user turn. -/
theorem multimodal_has_image_counterexample :
    ((multimodal_chat "hi" (some ⟨"text/plain", [1]⟩) none (fun _ => none) "r").result.map
        MultimodalResponse.has_image = .ok true)
    ∧ ((multimodal_chat "hi" (some ⟨"text/plain", [1]⟩) none (fun _ => none) "r").sentMessages.map
        Message.hasImagePart = [false]) := ⟨rfl, rfl⟩

/-- C3 amended: has_image is true exactly when an image file was supplied
(image is not None), regardless of its MIME type; the outgoing user turn
contains an image part exactly when a file was supplied and its declared MIME
type begins with "image/". -/
theorem multimodal_has_image_eq_supplied (m : String) (img : Option UploadFile)
    (hist : Option String) (jl : String → Option (List Message)) (reply : String) :
    ((multimodal_chat m img hist jl reply).result.map MultimodalResponse.has_image
        = .ok img.isSome)
    ∧ ((multimodal_chat m img hist jl reply).sentMessages.getLast?.map Message.hasImagePart
        = some (img.any fun f => pyStartsWith f.content_type "image/")) := by
  constructor
  · simp [multimodal_chat, Except.map]
  · simp only [multimodal_chat, getLast?_append_singleton, Option.map_some]
    cases img with
    | none => rfl
    | some f =>
        cases h : pyStartsWith f.content_type "image/" <;>
          simp [Message.hasImagePart, ContentPart.isImageUrl, h]

/-- C4: for every key in the static preset table, an image request with that
key yields analysis_type equal to the key and a text part equal to the
table's instruction string, on both /chat/image-upload and /chat/image-base64
and for any supplied prompt (so the preset takes priority over the prompt). -/
theorem preset_key_selects_table_instruction (k instr : String)
    (hk : (k, instr) ∈ presets) (image : UploadFile) (prompt : Option String)
    (b64 reply : String) (himg : pyStartsWith image.content_type "image/" = true) :
    ((image_upload_chat image prompt (some k) reply).result = .ok ⟨reply, k⟩
      ∧ (image_upload_chat image prompt (some k) reply).sentMessages =
          [⟨"user", .parts [.text instr,
            .image_url ("data:image/jpeg;base64," ++ b64encode image.bytes)]⟩])
    ∧ ((image_base64_chat ⟨b64, prompt, some k⟩ reply).result = .ok ⟨reply, k⟩
      ∧ (image_base64_chat ⟨b64, prompt, some k⟩ reply).sentMessages =
          [⟨"user", .parts [.text instr,
            .image_url ("data:image/jpeg;base64," ++ b64)]⟩]) := by
  obtain ⟨hke, hlk⟩ := mem_presets_props k instr hk
  have ht : pyTruthy (some k) = true := by simp [pyTruthy, hke]
  refine ⟨⟨?_, ?_⟩, ⟨?_, ?_⟩⟩ <;>
    simp [image_upload_chat, image_base64_chat, himg, ht, get_preset_prompt, hlk]

/-- Witness for C4 with the preset key "analyze" and an image/png upload. -/
theorem preset_key_selects_table_instruction_witness :
    (image_upload_chat ⟨"image/png", []⟩ (some "ignored") (some "analyze") "r").result =
      .ok ⟨"r", "analyze"⟩ :=
  (preset_key_selects_table_instruction "analyze"
    "Analyze this image in detail. Describe what you see, identify key elements, colors, composition, and any notable features."
    (by decide) ⟨"image/png", []⟩ (some "ignored") "B" "r" (by decide)).1.1

/-- C5: a nonempty preset key absent from the static table yields the default
instruction "Analyze this image" as the text part while analysis_type keeps
the literal unrecognized key, and the request still succeeds, on both
/chat/image-upload and /chat/image-base64. -/
theorem unknown_preset_key_preserved (k : String) (hke : k.isEmpty = false)
    (hlk : List.lookup k presets = none) (image : UploadFile) (prompt : Option String)
    (b64 reply : String) (himg : pyStartsWith image.content_type "image/" = true) :
    ((image_upload_chat image prompt (some k) reply).result = .ok ⟨reply, k⟩
      ∧ (image_upload_chat image prompt (some k) reply).sentMessages =
          [⟨"user", .parts [.text "Analyze this image",
            .image_url ("data:image/jpeg;base64," ++ b64encode image.bytes)]⟩])
    ∧ ((image_base64_chat ⟨b64, prompt, some k⟩ reply).result = .ok ⟨reply, k⟩
      ∧ (image_base64_chat ⟨b64, prompt, some k⟩ reply).sentMessages =
          [⟨"user", .parts [.text "Analyze this image",
            .image_url ("data:image/jpeg;base64," ++ b64)]⟩]) := by
  have ht : pyTruthy (some k) = true := by simp [pyTruthy, hke]
  refine ⟨⟨?_, ?_⟩, ⟨?_, ?_⟩⟩ <;>
    simp [image_upload_chat, image_base64_chat, himg, ht, get_preset_prompt, hlk]

/-- Witness for C5 with the unrecognized preset key "translate". -/
theorem unknown_preset_key_preserved_witness :
    (image_upload_chat ⟨"image/png", []⟩ none (some "translate") "r").result =
      .ok ⟨"r", "translate"⟩ :=
  (unknown_preset_key_preserved "translate" (by decide) (by decide)
    ⟨"image/png", []⟩ none "B" "r" (by decide)).1.1

/-- C6: with no preset key and a nonempty prompt, the text part is the
caller's prompt verbatim and analysis_type is "custom", on both
/chat/image-upload and /chat/image-base64. -/
theorem custom_prompt_used_verbatim (p : String) (hp : p.isEmpty = false)
    (image : UploadFile) (b64 reply : String)
    (himg : pyStartsWith image.content_type "image/" = true) :
    ((image_upload_chat image (some p) none reply).result = .ok ⟨reply, "custom"⟩
      ∧ (image_upload_chat image (some p) none reply).sentMessages =
          [⟨"user", .parts [.text p,
            .image_url ("data:image/jpeg;base64," ++ b64encode image.bytes)]⟩])
    ∧ ((image_base64_chat ⟨b64, some p, none⟩ reply).result = .ok ⟨reply, "custom"⟩
      ∧ (image_base64_chat ⟨b64, some p, none⟩ reply).sentMessages =
          [⟨"user", .parts [.text p,
            .image_url ("data:image/jpeg;base64," ++ b64)]⟩]) := by
  have ht : pyTruthy (some p) = true := by simp [pyTruthy, hp]
  refine ⟨⟨?_, ?_⟩, ⟨?_, ?_⟩⟩ <;>
    simp [image_upload_chat, image_base64_chat, himg, ht, pyTruthy, hp]

/-- Witness for C6 with the prompt "What is shown here?". -/
theorem custom_prompt_used_verbatim_witness :
    (image_upload_chat ⟨"image/png", []⟩ (some "What is shown here?") none "r").result =
      .ok ⟨"r", "custom"⟩ :=
  (custom_prompt_used_verbatim "What is shown here?" (by decide)
    ⟨"image/png", []⟩ "B" "r" (by decide)).1.1

/-- C8: on /chat/multimodal a serialized history that fails to parse as JSON
does not fail the request: the outcome is identical to supplying no history,
the outgoing message list holds exactly one turn with role "user" before the
assistant reply is appended, and the request succeeds. -/
theorem multimodal_malformed_history_discarded (m s : String)
    (jl : String → Option (List Message)) (hparse : jl s = none)
    (img : Option UploadFile) (reply : String) :
    (multimodal_chat m img (some s) jl reply = multimodal_chat m img none jl reply)
    ∧ ((multimodal_chat m img (some s) jl reply).sentMessages.length = 1)
    ∧ ((multimodal_chat m img (some s) jl reply).sentMessages.map Message.role = ["user"])
    ∧ ((multimodal_chat m img (some s) jl reply).result.isOk = true) := by
  have h1 : multimodal_chat m img (some s) jl reply = multimodal_chat m img none jl reply := by
    unfold multimodal_chat
    cases hse : s.isEmpty <;> simp [pyTruthy, hse, hparse]
  refine ⟨h1, ?_, ?_, ?_⟩ <;> rw [h1] <;> simp [multimodal_chat, pyTruthy, Except.isOk, Except.toBool]

/-- Witness for C8 at the unparsable history string "not json". -/
theorem multimodal_malformed_history_discarded_witness :
    (multimodal_chat "hi" none (some "not json") (fun _ => none) "r").sentMessages.length = 1 :=
  (multimodal_malformed_history_discarded "hi" "not json" (fun _ => none) rfl none "r").2.1

/-- C10: on all three image-accepting endpoints, the image part included in
the outgoing user turn carries a URL built with the fixed prefix
"data:image/jpeg;base64," followed by the base64 payload; the declared MIME
type never appears in the data URI (it is only consulted for the "image/"
acceptance check). -/
theorem image_url_jpeg_data_uri (image : UploadFile) (prompt preset : Option String)
    (req : ImageAnalysisRequest) (m reply : String)
    (jl : String → Option (List Message))
    (himg : pyStartsWith image.content_type "image/" = true) :
    ((image_upload_chat image prompt preset reply).sentMessages.map Message.imageUrls =
      [["data:image/jpeg;base64," ++ b64encode image.bytes]])
    ∧ ((image_base64_chat req reply).sentMessages.map Message.imageUrls =
      [["data:image/jpeg;base64," ++ req.image_base64]])
    ∧ ((multimodal_chat m (some image) none jl reply).sentMessages.map Message.imageUrls =
      [["data:image/jpeg;base64," ++ b64encode image.bytes]]) := by
  refine ⟨?_, ?_, ?_⟩ <;>
    simp [image_upload_chat, image_base64_chat, multimodal_chat, himg, pyTruthy, Message.imageUrls]

/-- Witness for C10 at an image/gif upload: the data URI still says jpeg. -/
theorem image_url_jpeg_data_uri_witness :
    (image_upload_chat ⟨"image/gif", [1, 2, 3]⟩ none none "r").sentMessages.map
        Message.imageUrls = [["data:image/jpeg;base64," ++ b64encode [1, 2, 3]]] :=
  (image_url_jpeg_data_uri ⟨"image/gif", [1, 2, 3]⟩ none none ⟨"B", none, none⟩ "m" "r"
    (fun _ => none) (by decide)).1
